import Mathlib

/-!
Verification of the article synchronization layer of the Sensegird admin
repository: the client-side service `src/frontend/src/services/articleService.ts`
and the server-side handlers `src/backend/routes/articleRoutes.js` with the
schema `src/backend/models/articleModel.js`.

The JavaScript/TypeScript code is shallowly embedded: JSON-like runtime values
become the inductive `Json` (numbers as integers; `undefined` is a separate
constructor since JS distinguishes it from `null`), property access on
`null`/`undefined` throws (modelled with `Except`), access on any other value
yields `undefined` for a missing key, and `a || b` is truthiness-based choice.
Network effects are modelled by passing the outcome of each request (the
response, or the thrown network error) as an explicit argument; the current
timestamp `new Date().toISOString()` is passed as an explicit `now` argument.
-/

namespace ArticleSync

/-- JSON-ish JavaScript runtime values. `jsUndefined` models JavaScript `undefined`
(what a missing-property access evaluates to); numbers are modelled as
integers. -/
inductive Json where
  | null : Json
  | jsUndefined : Json
  | bool : Bool → Json
  | num : Int → Json
  | str : String → Json
  | arr : List Json → Json
  | obj : List (String × Json) → Json

/-- JavaScript truthiness of a value. -/
def truthy : Json → Bool
  | .null => false
  | .jsUndefined => false
  | .bool b => b
  | .num n => n != 0
  | .str s => !s.isEmpty
  | .arr _ => true
  | .obj _ => true

/-- Lookup of a key in a JS object's field list: a missing key reads as
`undefined`. -/
def jsGet : List (String × Json) → String → Json
  | [], _ => .jsUndefined
  | (k, v) :: rest, key => if k = key then v else jsGet rest key

/-- JavaScript property access `j[k]`: throws a `TypeError` on `null` and
`undefined`, reads the field list of an object, and yields `undefined` on any
other value (primitives have no own properties of these names). -/
def getField : Json → String → Except String Json
  | .null, k => .error ("Cannot read properties of null (reading " ++ k ++ ")")
  | .jsUndefined, k => .error ("Cannot read properties of undefined (reading " ++ k ++ ")")
  | .obj fs, k => .ok (jsGet fs k)
  | _, _ => .ok .jsUndefined

/-- JavaScript `a || b`. -/
def jsOr (a b : Json) : Json := if truthy a then a else b

/-- JavaScript `Array.isArray`. -/
def isArray : Json → Bool
  | .arr _ => true
  | _ => false

/-- `Array.isArray(x) ? x : []` as used for every array field of the
normalizer. -/
def arrOrEmpty (x : Json) : Json := if isArray x then x else .arr []

/-- Embedding of `normalizeArticleData` (articleService.ts, lines 337–354):
unwrap `data.article || data.data || data`, then rebuild the canonical article
object field by field with `||`-defaults (`""` for text fields, `[]` via
`Array.isArray` for array fields, the current timestamp for `date`, `'draft'`
for `status`). The only property accesses that can throw are the ones on
`data` itself. -/
def normalizeArticleData (data : Json) (now : String) : Except String Json := do
  let aKey ← getField data "article"
  let dKey ← getField data "data"
  let article := jsOr aKey (jsOr dKey data)
  let articleid ← getField article "articleid"
  let idAlt ← getField article "id"
  let title ← getField article "title"
  let subtitle ← getField article "subtitle"
  let images ← getField article "images"
  let subtopics ← getField article "subtopics"
  let subcontent ← getField article "subcontent"
  let author ← getField article "author"
  let designation ← getField article "designation"
  let keywords ← getField article "keywords"
  let date ← getField article "date"
  let status ← getField article "status"
  pure (.obj
    [ ("articleid", jsOr articleid (jsOr idAlt (.str "")))
    , ("title", jsOr title (.str ""))
    , ("subtitle", jsOr subtitle (.str ""))
    , ("images", arrOrEmpty images)
    , ("subtopics", arrOrEmpty subtopics)
    , ("subcontent", arrOrEmpty subcontent)
    , ("author", jsOr author (.str ""))
    , ("designation", jsOr designation (.str ""))
    , ("keywords", arrOrEmpty keywords)
    , ("date", jsOr date (.str now))
    , ("status", jsOr status (.str "draft"))
    ])

/-- The `Article` record of the frontend service (articleService.ts,
lines 4–16). -/
structure Article where
  articleid : String
  date : String
  title : String
  subtitle : String
  images : List String
  subtopics : List String
  subcontent : List String
  author : String
  designation : String
  keywords : List String
  status : String
deriving DecidableEq, Repr

/-- An `Article` as the JSON object the server would send, fields in interface
order. -/
def encodeArticle (a : Article) : Json :=
  .obj
    [ ("articleid", .str a.articleid)
    , ("date", .str a.date)
    , ("title", .str a.title)
    , ("subtitle", .str a.subtitle)
    , ("images", .arr (a.images.map .str))
    , ("subtopics", .arr (a.subtopics.map .str))
    , ("subcontent", .arr (a.subcontent.map .str))
    , ("author", .str a.author)
    , ("designation", .str a.designation)
    , ("keywords", .arr (a.keywords.map .str))
    , ("status", .str a.status)
    ]

/-- JavaScript `String(v)` / template-literal conversion, needed because the
delete handler may interpolate a non-string error-message value. Arrays join
their converted elements with commas; objects print as `[object Object]`;
`null`/`undefined` inside an array contribute the empty string. -/
def jsToString (inArray : Bool) : Json → String
  | .null => if inArray then "" else "null"
  | .jsUndefined => if inArray then "" else "undefined"
  | .bool b => if b then "true" else "false"
  | .num n => toString n
  | .str s => s
  | .obj _ => "[object Object]"
  | .arr es => String.intercalate "," (es.attach.map fun e => jsToString true e.1)
termination_by j => sizeOf j
decreasing_by
  have h := List.sizeOf_lt_of_mem e.2
  simp only [Json.arr.sizeOf_spec]
  omega

/-- Is the first character list a prefix of the second? -/
def charsIsPre : List Char → List Char → Bool
  | [], _ => true
  | _ :: _, [] => false
  | c :: cs, d :: ds => c = d && charsIsPre cs ds

/-- Does the first character list contain the second as a contiguous run? -/
def charsHasSub (hay needle : List Char) : Bool :=
  match hay with
  | [] => needle.isEmpty
  | _ :: rest => charsIsPre needle hay || charsHasSub rest needle

/-- JavaScript `hay.includes(needle)` on strings. -/
def strIncludes (hay needle : String) : Bool :=
  charsHasSub hay.toList needle.toList

/-- JavaScript `Array.prototype.includes` against a string argument
(SameValueZero: only a string element can equal a string). -/
def jsonArrIncludesStr (es : List Json) (s : String) : Bool :=
  es.any fun e => match e with | .str t => t == s | _ => false

/-! ## Mock Fallback Generator (`getMockArticle`, lines 357–375) -/

/-- Embedding of `getMockArticle`: the current timestamp
`new Date().toISOString()` is the explicit argument `now`; everything else is
computed from the identifier or fixed. -/
def getMockArticle (id : String) (now : String) : Article :=
  { articleid := id
  , title := "Test Article " ++ id
  , subtitle := "This is a mock article for development purposes"
  , images := ["https://via.placeholder.com/800x400?text=Mock+Image"]
  , subtopics := ["First Section", "Second Section"]
  , subcontent :=
      [ "This is the content of the first section. It\x27s just mock data used when the API is unavailable."
      , "This is the content of the second section. In a real application, this would be replaced with actual article content."
      ]
  , author := "Test Author"
  , designation := "Developer"
  , keywords := ["test", "mock", "development"]
  , date := now
  , status := "draft"
  }

/-! ## `getArticleById` (lines 94–156) -/

/-- The timer raced against the GET request (line 100). -/
def getTimeoutMs : Nat := 15000

/-- Outcome of the `Promise.race` between the fetch and the 15-second timer:
either the fetch resolved first (with its status and parsed body), or the
timer fired first, or the fetch rejected first with a network error. -/
inductive FetchOutcome where
  | success (status : Nat) (statusText : String) (body : Json)
  | timeout
  | netErr (msg : String)

/-- `Response.ok`: status in the inclusive range 200–299. -/
def isOkStatus (st : Nat) : Bool := 200 ≤ st && st ≤ 299

/-- The object literal built in the catch branch of `getArticleById`
(lines 133–147), field for field: note it carries `content` and
`publishedDate` keys and no `date` key. -/
def getFallbackMock (id : String) (now : String) : Json :=
  .obj
    [ ("articleid", .str id)
    , ("title", .str ("Mock Article (ID: " ++ id.take 8 ++ "...)"))
    , ("subtitle", .str "This is mock data provided due to API fetch failure")
    , ("content", .str ("This mock content is displayed because the API request failed. " ++
        "Check the console for detailed error information."))
    , ("author", .str "System")
    , ("designation", .str "Automated Fallback")
    , ("images", .arr [])
    , ("subtopics", .arr [.str "Error Loading Article"])
    , ("subcontent", .arr [.str "The actual article could not be loaded. This is fallback content."])
    , ("keywords", .arr [.str "error", .str "mock", .str "fallback"])
    , ("publishedDate", .str now)
    , ("status", .str "draft")
    ]

/-- Embedding of `getArticleById`: `dev` is the
`import.meta.env?.DEV || import.meta.env?.MODE === 'development'` flag. A
successful (2xx) response returns its body; every other race outcome lands in
the catch branch, which returns the mock fallback in development mode and
otherwise rethrows a descriptive error. -/
def getArticleById (id : String) (dev : Bool) (outcome : FetchOutcome)
    (now : String) : Except String Json :=
  let fallback := fun (msg : String) =>
    if dev then Except.ok (getFallbackMock id now)
    else Except.error ("Failed to fetch article: " ++
      (if msg.isEmpty then "Unknown error" else msg))
  match outcome with
  | .success st stxt body =>
      if isOkStatus st then .ok body
      else fallback ("Server returned " ++ toString st ++ ": " ++ stxt)
  | .timeout => fallback "Request timeout after 15 seconds"
  | .netErr m => fallback m

/-! ## `updateArticle` (lines 164–210) -/

/-- Outcome of one PUT attempt inside the retry loop: a 2xx response with a
body, a non-2xx response, or a thrown network error. -/
inductive UpdOutcome where
  | ok (body : Json)
  | httpErr (status : Nat) (statusText : String)
  | netErr (msg : String)

/-- The `lastError.message` recorded for a failed attempt. -/
def updAttemptErrMsg : UpdOutcome → String
  | .ok _ => ""
  | .httpErr st stxt => "Server returned " ++ toString st ++ ": " ++ stxt
  | .netErr m => m

/-- Is the outcome a failure (non-2xx response or thrown error)? -/
def updIsFail : UpdOutcome → Bool
  | .ok _ => false
  | _ => true

/-- What one run of the `updateArticle` retry loop did: its result, the
sequence of `setTimeout` delays awaited between attempts (in order), and how
many attempts were made. -/
structure UpdRun where
  result : Except String Json
  delays : List Nat
  attempts : Nat

/-- The `while (retries > 0)` loop of `updateArticle`: attempt number
`made + 1` is taken from the environment `f`; on failure the code decrements
`retries` and, when attempts remain, awaits `1000 * (4 - retries)`
milliseconds (the value of `retries` after the decrement). Exhaustion throws
the last error, which the outer catch rewraps as
`Failed to update article: …`. -/
def updateLoop (f : Nat → UpdOutcome) :
    Nat → Nat → Option String → List Nat → UpdRun
  | 0, made, lastError, delays =>
      { result := .error ("Failed to update article: " ++
          lastError.getD "Failed to update article after multiple attempts")
      , delays := delays.reverse, attempts := made }
  | retries + 1, made, _, delays =>
      match f (made + 1) with
      | .ok body => { result := .ok body, delays := delays.reverse, attempts := made + 1 }
      | bad =>
          let msg := updAttemptErrMsg bad
          if retries > 0 then
            updateLoop f retries (made + 1) (some msg) ((1000 * (4 - retries)) :: delays)
          else
            { result := .error ("Failed to update article: " ++ msg)
            , delays := delays.reverse, attempts := made + 1 }

/-- Embedding of `updateArticle`: the loop starts with `retries = 3`, no last
error and no delays awaited. -/
def updateArticle (f : Nat → UpdOutcome) : UpdRun :=
  updateLoop f 3 0 none []

/-! ## `updateArticleStatus` (lines 314–334) -/

/-- An HTTP request issued by the client, as observed by the network layer. -/
structure Request where
  method : String
  url : String
  body : Json

/-- Outcome of a single fetch: 2xx with a parsed body, non-2xx, or thrown. -/
inductive HttpResp where
  | ok (body : Json)
  | notOk (status : Nat)
  | threw (msg : String)

/-- Embedding of `updateArticleStatus`: the PATCH request is issued
unconditionally — the function performs no local check of `status` — and a
non-2xx response makes it throw `Error: <status>`. The second component is
the list of requests sent during the call. -/
def updateArticleStatus (apiUrl id status : String) (resp : HttpResp) :
    Except String Json × List Request :=
  let req : Request :=
    { method := "PATCH"
    , url := apiUrl ++ "/articles/" ++ id ++ "/status"
    , body := .obj [("status", .str status)] }
  match resp with
  | .ok body => (.ok body, [req])
  | .notOk st => (.error ("Error: " ++ toString st), [req])
  | .threw m => (.error m, [req])

/-! ## `deleteArticle` (lines 217–289) -/

/-- The defect signature the delete handler looks for (line 254). -/
def deleteSignature : String := "findOneAndRemove is not a function"

/-- Outcome of the first DELETE fetch: 2xx; a non-2xx response carrying the
raw body text together with the result of `JSON.parse` on it; or a thrown
network error. -/
inductive DelFirstOutcome where
  | ok
  | httpErr (status : Nat) (statusText : String) (bodyText : String)
      (parse : Except String Json)
  | netErr (msg : String)

/-- Outcome of the alternate `POST /api/articles/remove` fetch. -/
inductive AltOutcome where
  | ok
  | notOk (status : Nat)
  | threw (msg : String)

/-- The `{success, message}` object `deleteArticle` resolves with. -/
structure DeleteResult where
  success : Bool
  message : String
deriving DecidableEq, Repr

/-- Embedding of `deleteArticle`. Returns the result object together with
whether the alternate removal endpoint was attempted. Mirrors the source:
`errorData` is the parsed body (`{}` for an empty body, `{error: rawText}` if
parsing failed); the derived message is
`errorData.message || errorData.error || response.statusText || 'Unknown error'`;
`.includes` on that value works for strings and arrays and throws a
`TypeError` (landing in the outer catch) on any other truthy value; the
alternate endpoint is tried only when the signature is found, and every path
returns rather than throws. -/
def deleteArticle (_id : String) (first : DelFirstOutcome) (alt : AltOutcome) :
    DeleteResult × Bool :=
  match first with
  | .ok => ({ success := true, message := "Article deleted successfully" }, false)
  | .netErr m =>
      ({ success := false
       , message := "Network error: " ++
           (if m.isEmpty then "Could not connect to server" else m) }, false)
  | .httpErr st stxt bodyText parse =>
      let errorData : Json :=
        if bodyText.isEmpty then .obj []
        else match parse with
          | .ok j => j
          | .error _ => .obj [("error", .str bodyText)]
      match getField errorData "message", getField errorData "error" with
      | .error e, _ => ({ success := false, message := "Network error: " ++ e }, false)
      | _, .error e => ({ success := false, message := "Network error: " ++ e }, false)
      | .ok mj, .ok ej =>
          let em := jsOr mj (jsOr ej (jsOr (.str stxt) (.str "Unknown error")))
          let serverErr := fun (m : String) =>
            { success := false
            , message := "Server error (" ++ toString st ++ "): " ++ m : DeleteResult }
          let altBranch := fun (m : String) =>
            match alt with
            | .ok => ({ success := true
                      , message := "Article deleted successfully (alt method)" }, true)
            | _ => (serverErr m, true)
          match em with
          | .str m =>
              if strIncludes m deleteSignature then altBranch m
              else (serverErr m, false)
          | .arr es =>
              let m := jsToString false (.arr es)
              if jsonArrIncludesStr es deleteSignature then altBranch m
              else (serverErr m, false)
          | _ =>
              ({ success := false
               , message := "Network error: errorMessage.includes is not a function" }, false)

/-! ## Article Store: server-side handlers (`articleRoutes.js`) over the
schema (`articleModel.js`).

The Mongo collection is modelled as a `List BArticle` in insertion order;
`Article.findOne` / `findOneAndUpdate` act on the first matching document;
`sort({date: -1})` sorts by the `date` timestamp descending. Database faults
(the 500 catch-all of every handler) are out of scope; Mongoose validation on
`save()` is modelled per the schema: `required` string paths must be present
and non-empty, `status` must be one of the enum values when provided and
defaults to `draft`, `date` defaults to the current time, array paths default
to `[]`. -/

/-- A stored article document. `date` is the creation timestamp in
milliseconds. -/
structure BArticle where
  articleid : String
  date : Nat
  title : String
  subtitle : String
  images : List String
  subtopics : List String
  subcontent : List String
  author : String
  designation : String
  keywords : List String
  status : String
deriving DecidableEq, Repr

/-- The three recognized status values (`articleModel.js` enum, and the
`includes` checks of the routes). -/
def validStatuses : List String := ["draft", "published", "archived"]

/-- Stable insertion for descending-by-date order. -/
def insertByDate (a : BArticle) : List BArticle → List BArticle
  | [] => [a]
  | b :: rest => if b.date < a.date then a :: b :: rest else b :: insertByDate a rest

/-- `sort({date: -1})`: the stored documents ordered by `date` descending. -/
def sortByDateDesc : List BArticle → List BArticle
  | [] => []
  | a :: rest => insertByDate a (sortByDateDesc rest)

/-- Response body of a handler that answers with a single document or an
error message. -/
inductive ArticleResp where
  | doc (a : BArticle)
  | msg (m : String)
deriving DecidableEq, Repr

/-- `GET /api/articles` (lines 28–44): an invalid or absent `status` query
leaves the filter empty; the (possibly filtered) list is returned sorted by
date descending with status 200. -/
def listHandler (store : List BArticle) (statusQuery : Option String) :
    Nat × List BArticle :=
  let filtered :=
    match statusQuery with
    | some s =>
        if s.isEmpty = false ∧ s ∈ validStatuses then store.filter (fun a => a.status = s)
        else store
    | none => store
  (200, sortByDateDesc filtered)

/-- `GET /api/articles/status/:status` (lines 47–62): 400 on an invalid
status, otherwise the filtered list sorted by date descending. -/
def getByStatusHandler (store : List BArticle) (s : String) :
    Nat × Except String (List BArticle) :=
  if s ∈ validStatuses then
    (200, .ok (sortByDateDesc (store.filter (fun a => a.status = s))))
  else
    (400, .error "Invalid status. Must be draft, published, or archived")

/-- `findOneAndUpdate({articleid: id}, {$set: …})`: rewrite the first matching
document, leave everything else in place. -/
def updateFirst (f : BArticle → BArticle) (id : String) : List BArticle → List BArticle
  | [] => []
  | a :: rest => if a.articleid = id then f a :: rest else a :: updateFirst f id rest

/-- `PATCH /api/articles/:id/status` (lines 65–89): 400 unless the body's
`status` is one of the three values, 404 if no document has the `articleid`,
otherwise `$set` of only the `status` field, answering with the updated
document (`{new: true}`). -/
def patchStatusHandler (store : List BArticle) (id : String)
    (status : Option String) : Nat × ArticleResp × List BArticle :=
  match status with
  | some s =>
      if s ∈ validStatuses then
        match store.find? (fun a => a.articleid = id) with
        | none => (404, .msg "Article not found", store)
        | some a =>
            (200, .doc { a with status := s },
             updateFirst (fun b => { b with status := s }) id store)
      else (400, .msg "Invalid status. Must be draft, published, or archived", store)
  | none => (400, .msg "Invalid status. Must be draft, published, or archived", store)

/-- Body of a `PUT /api/articles/:id` request: each editable field is either
absent or a value of its schema type. Neither `articleid` nor `date` is even
destructured from the body by the handler. -/
structure UpdateBody where
  title : Option String
  subtitle : Option String
  author : Option String
  designation : Option String
  status : Option String
  images : Option (List String)
  subtopics : Option (List String)
  subcontent : Option (List String)
  keywords : Option (List String)

/-- `if (field) articleFields.field = field` for a string field: JS truthiness
skips an absent or empty string. -/
def updStr (v : Option String) (old : String) : String :=
  match v with
  | some s => if s.isEmpty then old else s
  | none => old

/-- `if (field) articleFields.field = field` for an array field: any present
array (even empty) is truthy. -/
def updArr (v : Option (List String)) (old : List String) : List String :=
  v.getD old

/-- The `$set: articleFields` document applied to a found article by the PUT
handler. `articleid` and `date` are never part of `articleFields`. -/
def applyUpdateBody (b : UpdateBody) (a : BArticle) : BArticle :=
  { articleid := a.articleid
  , date := a.date
  , title := updStr b.title a.title
  , subtitle := updStr b.subtitle a.subtitle
  , images := updArr b.images a.images
  , subtopics := updArr b.subtopics a.subtopics
  , subcontent := updArr b.subcontent a.subcontent
  , author := updStr b.author a.author
  , designation := updStr b.designation a.designation
  , keywords := updArr b.keywords a.keywords
  , status := updStr b.status a.status }

/-- `PUT /api/articles/:id` (lines 148–189): 404 if no document matches,
otherwise `$set` of the truthy body fields, answering with the updated
document. -/
def putHandler (store : List BArticle) (id : String) (b : UpdateBody) :
    Nat × ArticleResp × List BArticle :=
  match store.find? (fun a => a.articleid = id) with
  | none => (404, .msg "Article not found", store)
  | some a => (200, .doc (applyUpdateBody b a), updateFirst (applyUpdateBody b) id store)

/-- Body of a `POST /api/articles` request, as destructured by the handler. -/
structure CreateBody where
  articleid : Option String
  title : Option String
  subtitle : Option String
  author : Option String
  designation : Option String
  status : Option String
  images : Option (List String)
  subtopics : Option (List String)
  subcontent : Option (List String)
  keywords : Option (List String)

/-- Mongoose `required: true` on a string path: present and non-empty. -/
def reqOk (v : Option String) : Bool :=
  match v with
  | some s => !s.isEmpty
  | none => false

/-- Mongoose enum validation of `status`: skipped when absent (the default
applies), otherwise the value must be one of the three. -/
def statusOk (v : Option String) : Bool :=
  match v with
  | some s => validStatuses.contains s
  | none => true

/-- Does `save()` pass schema validation for this body? -/
def saveValid (b : CreateBody) : Bool :=
  reqOk b.articleid && reqOk b.title && reqOk b.subtitle &&
  reqOk b.author && reqOk b.designation && statusOk b.status

/-- The document persisted by `save()`: schema defaults fill `date` (current
time), `status` (`draft`) and the array paths (`[]`). -/
def buildDoc (b : CreateBody) (now : Nat) : BArticle :=
  { articleid := b.articleid.getD ""
  , date := now
  , title := b.title.getD ""
  , subtitle := b.subtitle.getD ""
  , images := b.images.getD []
  , subtopics := b.subtopics.getD []
  , subcontent := b.subcontent.getD []
  , author := b.author.getD ""
  , designation := b.designation.getD ""
  , keywords := b.keywords.getD []
  , status := b.status.getD "draft" }

/-- `POST /api/articles` (lines 104–145): 400 if a document with the
submitted `articleid` already exists, otherwise `save()` — a schema-valid
body is appended and echoed back, an invalid one makes `save()` throw and the
catch-all answer 500 with the store unchanged. When `articleid` is absent
from the body, Mongoose drops the undefined condition and
`findOne({})` matches the first stored document, if any. -/
def createHandler (store : List BArticle) (b : CreateBody) (now : Nat) :
    Nat × ArticleResp × List BArticle :=
  let dup : Option BArticle :=
    match b.articleid with
    | some aid => store.find? (fun a => a.articleid = aid)
    | none => store.head?
  match dup with
  | some _ => (400, .msg "Article with this ID already exists", store)
  | none =>
      if saveValid b then
        let doc := buildDoc b now
        (200, .doc doc, store ++ [doc])
      else (500, .msg "Server Error", store)

/-! ## Auxiliary notions used by the statements -/

/-- Is the value a JS string? -/
def isStr : Json → Bool
  | .str _ => true
  | _ => false

/-- Which of the eleven article fields an input object carries: `true` keeps
the field, `false` drops it. Used to express "malformed inputs missing any
subset of fields". -/
structure FieldMask where
  articleid : Bool
  date : Bool
  title : Bool
  subtitle : Bool
  images : Bool
  subtopics : Bool
  subcontent : Bool
  author : Bool
  designation : Bool
  keywords : Bool
  status : Bool

/-- The full field list of an article, as JSON. -/
def articleFieldsOf (a : Article) : List (String × Json) :=
  [ ("articleid", .str a.articleid)
  , ("date", .str a.date)
  , ("title", .str a.title)
  , ("subtitle", .str a.subtitle)
  , ("images", .arr (a.images.map .str))
  , ("subtopics", .arr (a.subtopics.map .str))
  , ("subcontent", .arr (a.subcontent.map .str))
  , ("author", .str a.author)
  , ("designation", .str a.designation)
  , ("keywords", .arr (a.keywords.map .str))
  , ("status", .str a.status)
  ]

/-- Whether the mask keeps the field of the given name (`false` for any
non-field key). -/
def maskKeep (m : FieldMask) (k : String) : Bool :=
  if k = "articleid" then m.articleid
  else if k = "date" then m.date
  else if k = "title" then m.title
  else if k = "subtitle" then m.subtitle
  else if k = "images" then m.images
  else if k = "subtopics" then m.subtopics
  else if k = "subcontent" then m.subcontent
  else if k = "author" then m.author
  else if k = "designation" then m.designation
  else if k = "keywords" then m.keywords
  else if k = "status" then m.status
  else false

/-- The article `a` with exactly the fields selected by `m`, as a JSON
object: an article-shaped input missing an arbitrary subset of its fields. -/
def dropFields (a : Article) (m : FieldMask) : Json :=
  .obj ((articleFieldsOf a).filter fun p => maskKeep m p.1)

/-- Did the race outcome of `getArticleById` land in the catch branch
(timeout, thrown network error, or non-2xx response)? -/
def fetchFailed : FetchOutcome → Bool
  | .success st _ _ => !isOkStatus st
  | .timeout => true
  | .netErr _ => true

/-- Descending-date order between stored articles. -/
def dateDesc (x y : BArticle) : Prop := y.date ≤ x.date

/-- A create request with a fresh id but no `title`: it fails schema
validation on `save()`. -/
def noTitleBody : CreateBody :=
  { articleid := some "a1"
  , title := none
  , subtitle := some "sub"
  , author := some "au"
  , designation := some "des"
  , status := none
  , images := none
  , subtopics := none
  , subcontent := none
  , keywords := none }

/-- A concrete well-formed article used to instantiate universally quantified
results. -/
def sampleArticle : Article :=
  { articleid := "a1"
  , date := "2024-01-01T00:00:00.000Z"
  , title := "Title"
  , subtitle := "Subtitle"
  , images := ["img1"]
  , subtopics := ["s1"]
  , subcontent := ["c1"]
  , author := "Author"
  , designation := "Editor"
  , keywords := ["k1"]
  , status := "published" }

/-- A field mask dropping `date`, `title`, `images` and `status` while
keeping the other fields. -/
def sampleMask : FieldMask :=
  { articleid := true
  , date := false
  , title := false
  , subtitle := true
  , images := false
  , subtopics := true
  , subcontent := true
  , author := true
  , designation := true
  , keywords := true
  , status := false }

/-- A server that fails the first two PUT attempts (a thrown network error,
then a 500) and succeeds on the third. -/
def c1env : Nat → UpdOutcome := fun n =>
  if n = 1 then .netErr "connection reset"
  else if n = 2 then .httpErr 500 "Internal Server Error"
  else .ok (.obj [])

/-- The parsed 500-response body carrying the backend defect signature. -/
def c6parsedBody : Json := .obj [("message", .str "findOneAndRemove is not a function")]

/-- The shape the backend delete handler actually sends on a 500
(`{msg, error, success}`, lines 206–210 of `articleRoutes.js`): no `message`
key, the defect signature arriving in the `error` field. -/
def c6backendBody : Json :=
  .obj [ ("msg", .str "Server Error")
       , ("error", .str "Article.findOneAndRemove is not a function")
       , ("success", .bool false) ]

/-- A schema-valid create request body with a fresh id and no status. -/
def c7okBody : CreateBody :=
  { articleid := some "b2"
  , title := some "T"
  , subtitle := some "S"
  , author := some "A"
  , designation := some "D"
  , status := none
  , images := none
  , subtopics := none
  , subcontent := none
  , keywords := none }

/-- A stored document with the older creation date. -/
def olderDoc : BArticle :=
  { articleid := "b1"
  , date := 100
  , title := "older"
  , subtitle := "s1"
  , images := []
  , subtopics := []
  , subcontent := []
  , author := "a1"
  , designation := "d1"
  , keywords := []
  , status := "draft" }

/-- A stored document with the newer creation date. -/
def newerDoc : BArticle :=
  { articleid := "b2"
  , date := 200
  , title := "newer"
  , subtitle := "s2"
  , images := []
  , subtopics := []
  , subcontent := []
  , author := "a2"
  , designation := "d2"
  , keywords := []
  , status := "published" }

/-! ## Helper lemmas -/

theorem getField_ok_ne {j : Json} {k : String} {v : Json} (h : getField j k = .ok v) :
    j ≠ Json.null ∧ j ≠ Json.jsUndefined := by
  cases j
  case null => exact absurd h (by simp [getField])
  case jsUndefined => exact absurd h (by simp [getField])
  all_goals exact ⟨(by intro hc; cases hc), (by intro hc; cases hc)⟩

theorem truthy_ne_null {j : Json} (h : truthy j = true) : j ≠ Json.null ∧ j ≠ Json.jsUndefined := by
  cases j <;> simp_all [truthy]

theorem getField_ok {j : Json} (k : String) (h1 : j ≠ Json.null) (h2 : j ≠ Json.jsUndefined) :
    ∃ v, getField j k = .ok v := by
  cases j <;> simp_all [getField]

theorem jsOr_ne {a b : Json} (hb1 : b ≠ Json.null) (hb2 : b ≠ Json.jsUndefined) :
    jsOr a b ≠ Json.null ∧ jsOr a b ≠ Json.jsUndefined := by
  unfold jsOr; split
  · exact truthy_ne_null (by assumption)
  · exact ⟨hb1, hb2⟩

theorem jsGet_filter (keep : String → Bool) (l : List (String × Json)) (key : String) :
    jsGet (l.filter fun p => keep p.1) key =
      if keep key then jsGet l key else Json.jsUndefined := by
  induction l with
  | nil => simp [jsGet]
  | cons p rest ih =>
    obtain ⟨k, v⟩ := p
    by_cases hk : k = key
    · subst hk
      by_cases hkeep : keep k
      · simp [List.filter_cons, hkeep, jsGet]
      · simp [List.filter_cons, hkeep, jsGet, ih]
    · by_cases hkeep : keep k
      · simp [List.filter_cons, hkeep, jsGet, hk, ih]
      · simp [List.filter_cons, hkeep, jsGet, hk, ih]

theorem insertByDate_perm (a : BArticle) (l : List BArticle) :
    (insertByDate a l).Perm (a :: l) := by
  induction l with
  | nil => simp [insertByDate]
  | cons b rest ih =>
    unfold insertByDate; split
    · exact List.Perm.refl _
    · exact (ih.cons b).trans (List.Perm.swap a b rest)

theorem sortByDateDesc_perm (l : List BArticle) : (sortByDateDesc l).Perm l := by
  induction l with
  | nil => simp [sortByDateDesc]
  | cons a rest ih =>
    exact (insertByDate_perm a (sortByDateDesc rest)).trans (ih.cons a)

theorem insertByDate_pairwise {a : BArticle} {l : List BArticle}
    (h : l.Pairwise dateDesc) : (insertByDate a l).Pairwise dateDesc := by
  induction l with
  | nil => simp [insertByDate, dateDesc]
  | cons b rest ih =>
    rw [List.pairwise_cons] at h
    obtain ⟨hb, hrest⟩ := h
    unfold insertByDate; split
    · rename_i hlt
      refine List.pairwise_cons.mpr ⟨?_, List.pairwise_cons.mpr ⟨hb, hrest⟩⟩
      intro x hx
      rcases List.mem_cons.mp hx with rfl | hxr
      · exact Nat.le_of_lt hlt
      · exact Nat.le_trans (hb x hxr) (Nat.le_of_lt hlt)
    · rename_i hge
      refine List.pairwise_cons.mpr ⟨?_, ih hrest⟩
      intro x hx
      rcases List.mem_cons.mp ((insertByDate_perm a rest).mem_iff.mp hx) with rfl | hxr
      · exact Nat.le_of_not_lt hge
      · exact hb x hxr

theorem sortByDateDesc_pairwise (l : List BArticle) :
    (sortByDateDesc l).Pairwise dateDesc := by
  induction l with
  | nil => simp [sortByDateDesc]
  | cons a rest ih => exact insertByDate_pairwise ih

/-! ## Claim C9 — the Mock Fallback Generator -/

/-- C9 counterexample: `getMockArticle` is not deterministic across calls —
its `date` field is the call-time timestamp, so two calls with the same
identifier made at different times give different `Article` values; moreover
the subtitle is a fixed sentence that does not reference the identifier. -/
theorem c9_mock_not_deterministic :
    getMockArticle "xyz" "2024-01-01T00:00:00.000Z" ≠
      getMockArticle "xyz" "2024-01-02T00:00:00.000Z" ∧
    strIncludes (getMockArticle "xyz" "2024-01-01T00:00:00.000Z").subtitle "xyz" = false := by
  refine ⟨?_, by decide⟩
  intro h
  have := congrArg Article.date h
  simp [getMockArticle] at this

/-- C9 (amended): for every identifier, `getMockArticle` is deterministic in
all fields except `date` (which is the call-time timestamp): the result
carries the requested identifier, a title referencing the identifier, a fixed
subtitle, the fixed placeholder image, two canned sections, and status
`draft`. -/
theorem c9_mock_article_deterministic_except_date (id now now' : String) :
    (getMockArticle id now).articleid = id ∧
    (getMockArticle id now).title = "Test Article " ++ id ∧
    (getMockArticle id now).subtitle = "This is a mock article for development purposes" ∧
    (getMockArticle id now).images = ["https://via.placeholder.com/800x400?text=Mock+Image"] ∧
    (getMockArticle id now).subtopics.length = 2 ∧
    (getMockArticle id now).subcontent.length = 2 ∧
    (getMockArticle id now).status = "draft" ∧
    (getMockArticle id now).date = now ∧
    { getMockArticle id now with date := "" } = { getMockArticle id now' with date := "" } :=
  ⟨rfl, rfl, rfl, rfl, rfl, rfl, rfl, rfl, rfl⟩

/-! ## Claim C2 — `updateArticleStatus` -/

/-- C2 counterexample: calling `updateArticleStatus` with the invalid status
`deleted` still issues one PATCH request — there is no local validation and no
local `ValidationError`; the error surfaced is the server-derived
`Error: 400`. -/
theorem c2_invalid_status_still_sends_request :
    (updateArticleStatus "http://localhost:5000/api" "a1" "deleted" (.notOk 400)).2.length = 1 ∧
    validStatuses.contains "deleted" = false ∧
    (updateArticleStatus "http://localhost:5000/api" "a1" "deleted" (.notOk 400)).1 =
      .error "Error: 400" :=
  ⟨rfl, by decide, rfl⟩

/-- C2 (amended): `updateArticleStatus` performs no local validation of the
status value: for every status string (valid or not) it issues exactly one
PATCH request to `\<apiUrl\>/articles/\<id\>/status` with body `{status}`, and
its result is determined by the server response alone (the body on 2xx, the
thrown `Error: <status>` on non-2xx, the network error otherwise). -/
theorem c2_updateStatus_always_sends (apiUrl id status : String) (resp : HttpResp) :
    (updateArticleStatus apiUrl id status resp).2 =
      [{ method := "PATCH"
       , url := apiUrl ++ "/articles/" ++ id ++ "/status"
       , body := .obj [("status", .str status)] }] ∧
    (updateArticleStatus apiUrl id status resp).1 =
      (match resp with
       | .ok body => .ok body
       | .notOk st => .error ("Error: " ++ toString st)
       | .threw m => .error m) := by
  cases resp <;> exact ⟨rfl, rfl⟩

/-! ## Claim C1 — the `updateArticle` retry loop -/

/-- C1 counterexample: with a server that fails the first two attempts and
succeeds on the third, the delays actually awaited between attempts are
2000 ms and then 3000 ms — not the 1000 ms and 2000 ms the claim states
(`1000ms × attemptNumber`): the code computes `1000 * (4 - retries)` after
decrementing `retries`. -/
theorem c1_backoff_delays_counterexample :
    updIsFail (c1env 1) = true ∧ updIsFail (c1env 2) = true ∧
    (updateArticle c1env).result = .ok (.obj []) ∧
    (updateArticle c1env).delays = [2000, 3000] ∧
    (updateArticle c1env).delays ≠ [1000, 2000] :=
  ⟨rfl, rfl, rfl, rfl, by decide⟩

/-- C1 (amended): every call to `updateArticle` makes at most 3 sequential
attempts; after the first failed attempt the client waits 2000 ms and after
the second 3000 ms (that is, `1000ms × (attemptNumber + 1)`); a success stops
the loop immediately, and after all 3 attempts fail the last observed error
message is propagated to the caller wrapped as
`Failed to update article: <message>`. -/
theorem c1_update_retry_behavior (f : Nat → UpdOutcome) :
    (updateArticle f).attempts ≤ 3 ∧
    (∀ b, f 1 = .ok b → updateArticle f = ⟨.ok b, [], 1⟩) ∧
    (∀ b, updIsFail (f 1) = true → f 2 = .ok b →
      updateArticle f = ⟨.ok b, [2000], 2⟩) ∧
    (∀ b, updIsFail (f 1) = true → updIsFail (f 2) = true → f 3 = .ok b →
      updateArticle f = ⟨.ok b, [2000, 3000], 3⟩) ∧
    (updIsFail (f 1) = true → updIsFail (f 2) = true → updIsFail (f 3) = true →
      updateArticle f =
        ⟨.error ("Failed to update article: " ++ updAttemptErrMsg (f 3)),
         [2000, 3000], 3⟩) := by
  refine ⟨?_, ?_, ?_, ?_, ?_⟩
  · cases e1 : f 1 with
    | ok b => simp [updateArticle, updateLoop, e1]
    | httpErr st sx =>
      cases e2 : f 2 with
      | ok b => simp [updateArticle, updateLoop, e1, e2]
      | httpErr st2 sx2 =>
        cases e3 : f 3 <;> simp [updateArticle, updateLoop, e1, e2, e3]
      | netErr m2 =>
        cases e3 : f 3 <;> simp [updateArticle, updateLoop, e1, e2, e3]
    | netErr m =>
      cases e2 : f 2 with
      | ok b => simp [updateArticle, updateLoop, e1, e2]
      | httpErr st2 sx2 =>
        cases e3 : f 3 <;> simp [updateArticle, updateLoop, e1, e2, e3]
      | netErr m2 =>
        cases e3 : f 3 <;> simp [updateArticle, updateLoop, e1, e2, e3]
  · intro b hb
    simp [updateArticle, updateLoop, hb]
  · intro b h1 h2
    cases e1 : f 1 with
    | ok c => simp [e1, updIsFail] at h1
    | httpErr st sx => simp [updateArticle, updateLoop, e1, h2]
    | netErr m => simp [updateArticle, updateLoop, e1, h2]
  · intro b h1 h2 h3
    cases e1 : f 1 with
    | ok c => simp [e1, updIsFail] at h1
    | httpErr st sx =>
      cases e2 : f 2 with
      | ok c => simp [e2, updIsFail] at h2
      | httpErr st2 sx2 => simp [updateArticle, updateLoop, e1, e2, h3]
      | netErr m2 => simp [updateArticle, updateLoop, e1, e2, h3]
    | netErr m =>
      cases e2 : f 2 with
      | ok c => simp [e2, updIsFail] at h2
      | httpErr st2 sx2 => simp [updateArticle, updateLoop, e1, e2, h3]
      | netErr m2 => simp [updateArticle, updateLoop, e1, e2, h3]
  · intro h1 h2 h3
    cases e1 : f 1 with
    | ok c => simp [e1, updIsFail] at h1
    | httpErr st sx =>
      cases e2 : f 2 with
      | ok c => simp [e2, updIsFail] at h2
      | httpErr st2 sx2 =>
        cases e3 : f 3 with
        | ok c => simp [e3, updIsFail] at h3
        | httpErr st3 sx3 => simp [updateArticle, updateLoop, e1, e2, e3, updAttemptErrMsg]
        | netErr m3 => simp [updateArticle, updateLoop, e1, e2, e3, updAttemptErrMsg]
      | netErr m2 =>
        cases e3 : f 3 with
        | ok c => simp [e3, updIsFail] at h3
        | httpErr st3 sx3 => simp [updateArticle, updateLoop, e1, e2, e3, updAttemptErrMsg]
        | netErr m3 => simp [updateArticle, updateLoop, e1, e2, e3, updAttemptErrMsg]
    | netErr m =>
      cases e2 : f 2 with
      | ok c => simp [e2, updIsFail] at h2
      | httpErr st2 sx2 =>
        cases e3 : f 3 with
        | ok c => simp [e3, updIsFail] at h3
        | httpErr st3 sx3 => simp [updateArticle, updateLoop, e1, e2, e3, updAttemptErrMsg]
        | netErr m3 => simp [updateArticle, updateLoop, e1, e2, e3, updAttemptErrMsg]
      | netErr m2 =>
        cases e3 : f 3 with
        | ok c => simp [e3, updIsFail] at h3
        | httpErr st3 sx3 => simp [updateArticle, updateLoop, e1, e2, e3, updAttemptErrMsg]
        | netErr m3 => simp [updateArticle, updateLoop, e1, e2, e3, updAttemptErrMsg]

/-- C1 witness: the amended retry behavior applied to the concrete
two-failures-then-success server `c1env`. -/
theorem c1_update_retry_behavior_witness :
    updIsFail (c1env 1) = true ∧ updIsFail (c1env 2) = true ∧ c1env 3 = .ok (.obj []) ∧
    updateArticle c1env = ⟨.ok (.obj []), [2000, 3000], 3⟩ :=
  ⟨rfl, rfl, rfl, (c1_update_retry_behavior c1env).2.2.2.1 (.obj []) rfl rfl rfl⟩

theorem exceptOkBind {α β : Type} (a : α) (f : α → Except String β) :
    (Except.ok a >>= f) = f a := rfl

theorem jsOrUndefinedLeft (b : Json) : jsOr Json.jsUndefined b = b := rfl

theorem arrOrEmpty_isArray (x : Json) : isArray (arrOrEmpty x) = true := by
  unfold arrOrEmpty; split
  · assumption
  · rfl

theorem textFieldOk (keep : Bool) (v dflt : String) :
    isStr (jsOr (if keep = true then Json.str v else Json.jsUndefined) (.str dflt)) = true ∧
    (keep = false →
      jsOr (if keep = true then Json.str v else Json.jsUndefined) (.str dflt) = .str dflt) := by
  cases keep
  · exact ⟨rfl, fun _ => rfl⟩
  · constructor
    · by_cases hv : v.isEmpty <;> simp [jsOr, truthy, isStr, hv]
    · intro h; exact absurd h (by simp)

/-! ## Claim C3 — Normalizer shape invariance -/

/-- C3: for every article value `X` (and any second article `Y`), the
Normalizer produces identical output on `{article: X}`, `{data: X}` and bare
`X`; when both wrapping keys are present the `article` key wins, and a `data`
key wins over sibling article-like fields of the wrapper itself. -/
theorem c3_normalizer_wrapping_shapes (a b : Article) (now : String) :
    normalizeArticleData (.obj [("article", encodeArticle a)]) now =
      normalizeArticleData (encodeArticle a) now ∧
    normalizeArticleData (.obj [("data", encodeArticle a)]) now =
      normalizeArticleData (encodeArticle a) now ∧
    normalizeArticleData (.obj [("article", encodeArticle a), ("data", encodeArticle b)]) now =
      normalizeArticleData (encodeArticle a) now ∧
    normalizeArticleData (.obj [("data", encodeArticle a), ("title", .str "outer title")]) now =
      normalizeArticleData (encodeArticle a) now :=
  ⟨rfl, rfl, rfl, rfl⟩

/-! ## Claim C4 — Normalizer totality and defaults -/

/-- C4 counterexample: the Normalizer does raise on one input: JSON `null`
(a valid body for `response.json()`), because `data.article` is read before
any guard — `normalizeArticleData(null)` throws a `TypeError` instead of
returning an `Article`-shaped value. -/
theorem c4_normalizer_null_raises :
    normalizeArticleData .null "2024-01-01T00:00:00.000Z" =
      .error "Cannot read properties of null (reading article)" := rfl

/-- C4 (amended): the Normalizer never raises on any input other than
`null`/`undefined`; and on every article-shaped input missing an arbitrary
subset of fields it returns an `Article`-shaped object, substituting the
empty string for each missing text field (`articleid`, `title`, `subtitle`,
`author`, `designation`), the empty array for each missing array field
(`images`, `subtopics`, `subcontent`, `keywords`), `draft` for a missing
status and the current timestamp for a missing date. -/
theorem c4_normalizer_total_and_defaults :
    (∀ (d : Json) (now : String), d ≠ .null → d ≠ .jsUndefined →
      ∃ r, normalizeArticleData d now = .ok r) ∧
    (∀ (a : Article) (m : FieldMask) (now : String),
      a.status ∈ validStatuses →
      ∃ fs, normalizeArticleData (dropFields a m) now = .ok (.obj fs) ∧
        isStr (jsGet fs "articleid") = true ∧
        isStr (jsGet fs "title") = true ∧
        isStr (jsGet fs "subtitle") = true ∧
        isStr (jsGet fs "author") = true ∧
        isStr (jsGet fs "designation") = true ∧
        isStr (jsGet fs "date") = true ∧
        isArray (jsGet fs "images") = true ∧
        isArray (jsGet fs "subtopics") = true ∧
        isArray (jsGet fs "subcontent") = true ∧
        isArray (jsGet fs "keywords") = true ∧
        (∃ s, jsGet fs "status" = .str s ∧ s ∈ validStatuses) ∧
        (m.articleid = false → jsGet fs "articleid" = .str "") ∧
        (m.title = false → jsGet fs "title" = .str "") ∧
        (m.subtitle = false → jsGet fs "subtitle" = .str "") ∧
        (m.author = false → jsGet fs "author" = .str "") ∧
        (m.designation = false → jsGet fs "designation" = .str "") ∧
        (m.images = false → jsGet fs "images" = .arr []) ∧
        (m.subtopics = false → jsGet fs "subtopics" = .arr []) ∧
        (m.subcontent = false → jsGet fs "subcontent" = .arr []) ∧
        (m.keywords = false → jsGet fs "keywords" = .arr []) ∧
        (m.status = false → jsGet fs "status" = .str "draft") ∧
        (m.date = false → jsGet fs "date" = .str now)) := by
  constructor
  · intro d now h1 h2
    rcases getField_ok "article" h1 h2 with ⟨va, ha⟩
    rcases getField_ok "data" h1 h2 with ⟨vd, hd⟩
    have hne1 := jsOr_ne (a := vd) h1 h2
    have hne := jsOr_ne (a := va) hne1.1 hne1.2
    simp only [normalizeArticleData, ha, hd, exceptOkBind]
    revert hne
    generalize jsOr va (jsOr vd d) = art
    intro hne
    cases art with
    | null => exact absurd rfl hne.1
    | jsUndefined => exact absurd rfl hne.2
    | bool b => exact ⟨_, rfl⟩
    | num n => exact ⟨_, rfl⟩
    | str s => exact ⟨_, rfl⟩
    | arr es => exact ⟨_, rfl⟩
    | obj fs => exact ⟨_, rfl⟩
  · intro a m now hstat
    have hart : jsGet ((articleFieldsOf a).filter fun p => maskKeep m p.1) "article" =
        Json.jsUndefined := by rw [jsGet_filter]; rfl
    have hdat : jsGet ((articleFieldsOf a).filter fun p => maskKeep m p.1) "data" =
        Json.jsUndefined := by rw [jsGet_filter]; rfl
    have hid : jsGet ((articleFieldsOf a).filter fun p => maskKeep m p.1) "id" =
        Json.jsUndefined := by rw [jsGet_filter]; rfl
    have k1 : jsGet ((articleFieldsOf a).filter fun p => maskKeep m p.1) "articleid" =
        if m.articleid = true then Json.str a.articleid else Json.jsUndefined := by
      rw [jsGet_filter]; rfl
    have k2 : jsGet ((articleFieldsOf a).filter fun p => maskKeep m p.1) "date" =
        if m.date = true then Json.str a.date else Json.jsUndefined := by
      rw [jsGet_filter]; rfl
    have k3 : jsGet ((articleFieldsOf a).filter fun p => maskKeep m p.1) "title" =
        if m.title = true then Json.str a.title else Json.jsUndefined := by
      rw [jsGet_filter]; rfl
    have k4 : jsGet ((articleFieldsOf a).filter fun p => maskKeep m p.1) "subtitle" =
        if m.subtitle = true then Json.str a.subtitle else Json.jsUndefined := by
      rw [jsGet_filter]; rfl
    have k5 : jsGet ((articleFieldsOf a).filter fun p => maskKeep m p.1) "images" =
        if m.images = true then Json.arr (a.images.map .str) else Json.jsUndefined := by
      rw [jsGet_filter]; rfl
    have k6 : jsGet ((articleFieldsOf a).filter fun p => maskKeep m p.1) "subtopics" =
        if m.subtopics = true then Json.arr (a.subtopics.map .str) else Json.jsUndefined := by
      rw [jsGet_filter]; rfl
    have k7 : jsGet ((articleFieldsOf a).filter fun p => maskKeep m p.1) "subcontent" =
        if m.subcontent = true then Json.arr (a.subcontent.map .str) else Json.jsUndefined := by
      rw [jsGet_filter]; rfl
    have k8 : jsGet ((articleFieldsOf a).filter fun p => maskKeep m p.1) "author" =
        if m.author = true then Json.str a.author else Json.jsUndefined := by
      rw [jsGet_filter]; rfl
    have k9 : jsGet ((articleFieldsOf a).filter fun p => maskKeep m p.1) "designation" =
        if m.designation = true then Json.str a.designation else Json.jsUndefined := by
      rw [jsGet_filter]; rfl
    have k10 : jsGet ((articleFieldsOf a).filter fun p => maskKeep m p.1) "keywords" =
        if m.keywords = true then Json.arr (a.keywords.map .str) else Json.jsUndefined := by
      rw [jsGet_filter]; rfl
    have k11 : jsGet ((articleFieldsOf a).filter fun p => maskKeep m p.1) "status" =
        if m.status = true then Json.str a.status else Json.jsUndefined := by
      rw [jsGet_filter]; rfl
    simp only [normalizeArticleData, dropFields, getField, exceptOkBind, hart, hdat, hid,
      k1, k2, k3, k4, k5, k6, k7, k8, k9, k10, k11, jsOrUndefinedLeft, pure, Except.pure]
    refine ⟨_, rfl, ?_, ?_, ?_, ?_, ?_, ?_, ?_, ?_, ?_, ?_, ?_, ?_, ?_, ?_, ?_, ?_, ?_, ?_,
      ?_, ?_, ?_, ?_⟩
    · exact (textFieldOk m.articleid a.articleid "").1
    · exact (textFieldOk m.title a.title "").1
    · exact (textFieldOk m.subtitle a.subtitle "").1
    · exact (textFieldOk m.author a.author "").1
    · exact (textFieldOk m.designation a.designation "").1
    · exact (textFieldOk m.date a.date now).1
    · exact arrOrEmpty_isArray _
    · exact arrOrEmpty_isArray _
    · exact arrOrEmpty_isArray _
    · exact arrOrEmpty_isArray _
    · cases hm : m.status with
      | false => exact ⟨"draft", rfl, by decide⟩
      | true =>
          simp [validStatuses] at hstat
          rcases hstat with h | h | h
          · exact ⟨"draft", by rw [h]; rfl, by decide⟩
          · exact ⟨"published", by rw [h]; rfl, by decide⟩
          · exact ⟨"archived", by rw [h]; rfl, by decide⟩
    · exact (textFieldOk m.articleid a.articleid "").2
    · exact (textFieldOk m.title a.title "").2
    · exact (textFieldOk m.subtitle a.subtitle "").2
    · exact (textFieldOk m.author a.author "").2
    · exact (textFieldOk m.designation a.designation "").2
    · intro hm; rw [hm]; rfl
    · intro hm; rw [hm]; rfl
    · intro hm; rw [hm]; rfl
    · intro hm; rw [hm]; rfl
    · intro hm; rw [hm]; rfl
    · intro hm; rw [hm]; rfl

/-- C4 witness: the totality part applied to the concrete input
`{title: "T"}`, and the shape-and-defaults part applied to `sampleArticle`
with `sampleMask` (which drops `date`, `title`, `images` and `status`). -/
theorem c4_normalizer_total_and_defaults_witness :
    (Json.obj [("title", Json.str "T")] ≠ Json.null ∧
     Json.obj [("title", Json.str "T")] ≠ Json.jsUndefined ∧
     ∃ r, normalizeArticleData (.obj [("title", .str "T")]) "NOW" = .ok r) ∧
    (sampleArticle.status ∈ validStatuses ∧
     ∃ fs, normalizeArticleData (dropFields sampleArticle sampleMask) "NOW" = .ok (.obj fs) ∧
       jsGet fs "title" = .str "" ∧ jsGet fs "images" = .arr [] ∧
       jsGet fs "status" = .str "draft" ∧ jsGet fs "date" = .str "NOW") := by
  constructor
  · refine ⟨?_, ?_, ?_⟩
    · intro h; cases h
    · intro h; cases h
    · exact c4_normalizer_total_and_defaults.1 _ "NOW" (by intro h; cases h) (by intro h; cases h)
  · refine ⟨by decide, ?_⟩
    obtain ⟨fs, hok, _, _, _, _, _, _, _, _, _, _, _, _, hTitle, _, _, _, hImages, _, _, _,
      hStatus, hDate⟩ :=
      c4_normalizer_total_and_defaults.2 sampleArticle sampleMask "NOW" (by decide)
    exact ⟨fs, hok, hTitle rfl, hImages rfl, hStatus rfl, hDate rfl⟩

/-! ## Claim C5 — `getArticleById` timeout race and fallback -/

/-- C5: the GET races a 15000 ms timer; a 2xx response that wins the race is
returned as-is; on timeout, non-2xx status or network fault the operation
returns the mock fallback record carrying the requested id when development
mode is enabled, and otherwise propagates a descriptive
`Failed to fetch article: …` error (shown concretely for the timeout
outcome). -/
theorem c5_get_race_fallback (id : String) (dev : Bool) (outcome : FetchOutcome)
    (now : String) :
    getTimeoutMs = 15000 ∧
    (∀ st stxt body, outcome = .success st stxt body → isOkStatus st = true →
      getArticleById id dev outcome now = .ok body) ∧
    (fetchFailed outcome = true → dev = true →
      getArticleById id dev outcome now = .ok (getFallbackMock id now)) ∧
    getField (getFallbackMock id now) "articleid" = .ok (.str id) ∧
    (fetchFailed outcome = true → dev = false →
      ∃ msg, getArticleById id dev outcome now =
        .error ("Failed to fetch article: " ++ msg)) ∧
    (outcome = .timeout → dev = false →
      getArticleById id dev outcome now =
        .error "Failed to fetch article: Request timeout after 15 seconds") := by
  refine ⟨rfl, ?_, ?_, rfl, ?_, ?_⟩
  · intro st stxt body heq hok
    subst heq
    simp [getArticleById, hok]
  · intro hf hdev
    subst hdev
    cases outcome with
    | success st stxt body =>
        simp only [fetchFailed, Bool.not_eq_true'] at hf
        simp [getArticleById, hf]
    | timeout => rfl
    | netErr m => rfl
  · intro hf hdev
    subst hdev
    cases outcome with
    | success st stxt body =>
        simp only [fetchFailed, Bool.not_eq_true'] at hf
        refine ⟨if ("Server returned " ++ toString st ++ ": " ++ stxt).isEmpty then
          "Unknown error" else "Server returned " ++ toString st ++ ": " ++ stxt, ?_⟩
        simp [getArticleById, hf]
    | timeout => exact ⟨"Request timeout after 15 seconds", rfl⟩
    | netErr m => exact ⟨if m.isEmpty then "Unknown error" else m, rfl⟩
  · intro heq hdev
    subst heq; subst hdev
    rfl

/-- C5 witness: the race-and-fallback contract applied to the timeout
outcome, in development mode and in production mode. -/
theorem c5_get_race_fallback_witness :
    fetchFailed .timeout = true ∧
    getArticleById "a1" true .timeout "NOW" = .ok (getFallbackMock "a1" "NOW") ∧
    getArticleById "a1" false .timeout "NOW" =
      .error "Failed to fetch article: Request timeout after 15 seconds" :=
  ⟨rfl, (c5_get_race_fallback "a1" true .timeout "NOW").2.2.1 rfl rfl,
    (c5_get_race_fallback "a1" false .timeout "NOW").2.2.2.2.2 rfl rfl⟩

/-! ## Claim C6 — `deleteArticle` fallback policy -/

/-- C6 counterexample: when the first DELETE fetch itself throws a network
error whose message contains the defect signature, no alternate-endpoint
attempt is made — so "alternate endpoint attempted iff the failure message
contains the signature" fails as stated: the signature detection only runs on
HTTP error responses. -/
theorem c6_netErr_signature_no_alt :
    strIncludes "findOneAndRemove is not a function" deleteSignature = true ∧
    (deleteArticle "a1" (.netErr "findOneAndRemove is not a function") .ok).2 = false ∧
    (deleteArticle "a1" (.netErr "findOneAndRemove is not a function") .ok).1 =
      { success := false
      , message := "Network error: findOneAndRemove is not a function" } :=
  ⟨by decide, rfl, rfl⟩

/-- C6 (amended): `deleteArticle` never throws — every path returns a
`{success, message}` object; and the alternate removal endpoint is attempted
exactly once if and only if the first attempt produced an HTTP error response
whose derived error message
(`errorData.message || errorData.error || statusText || 'Unknown error'`,
with `errorData` the parsed body, `{}` for an empty body and
`{error: rawText}` when parsing fails) is a string containing the defect
signature `findOneAndRemove is not a function` or an array containing it as
an element (the only values `.includes` works on; any other truthy value
throws a `TypeError` that the outer catch absorbs, and a parsed body of
`null`/`undefined` likewise aborts before the check); a thrown network error
never triggers the alternate attempt, whatever its message. The conjuncts
cover every HTTP error response: empty body, unparseable body, parsed
`null`/`undefined`, and an arbitrary parsed value via its `message` and
`error` fields. -/
theorem c6_delete_contract (id : String) (first : DelFirstOutcome) (alt : AltOutcome) :
    (∃ s msg, deleteArticle id first alt =
      ({ success := s, message := msg }, (deleteArticle id first alt).2)) ∧
    (first = .ok → deleteArticle id first alt =
      ({ success := true, message := "Article deleted successfully" }, false)) ∧
    (∀ m, first = .netErr m → (deleteArticle id first alt).2 = false) ∧
    (∀ st stxt bodyText parse, first = .httpErr st stxt bodyText parse →
      bodyText.isEmpty = true →
      (deleteArticle id first alt).2 =
        strIncludes (if stxt.isEmpty = true then "Unknown error" else stxt)
          deleteSignature) ∧
    (∀ st stxt bodyText perr, first = .httpErr st stxt bodyText (.error perr) →
      bodyText.isEmpty = false →
      (deleteArticle id first alt).2 = strIncludes bodyText deleteSignature) ∧
    (∀ st stxt bodyText j, first = .httpErr st stxt bodyText (.ok j) →
      bodyText.isEmpty = false → (j = .null ∨ j = .jsUndefined) →
      (deleteArticle id first alt).2 = false) ∧
    (∀ st stxt bodyText j mj ej, first = .httpErr st stxt bodyText (.ok j) →
      bodyText.isEmpty = false →
      getField j "message" = .ok mj → getField j "error" = .ok ej →
      (deleteArticle id first alt).2 =
        (match jsOr mj (jsOr ej (jsOr (.str stxt) (.str "Unknown error"))) with
         | .str m => strIncludes m deleteSignature
         | .arr es => jsonArrIncludesStr es deleteSignature
         | _ => false)) ∧
    (∀ st stxt bodyText j m, first = .httpErr st stxt bodyText (.ok j) →
      bodyText.isEmpty = false → getField j "message" = .ok (.str m) →
      m.isEmpty = false → strIncludes m deleteSignature = true → alt = .ok →
      deleteArticle id first alt =
        ({ success := true, message := "Article deleted successfully (alt method)" }, true)) ∧
    (∀ st stxt bodyText j m, first = .httpErr st stxt bodyText (.ok j) →
      bodyText.isEmpty = false → getField j "message" = .ok (.str m) →
      m.isEmpty = false → strIncludes m deleteSignature = false →
      deleteArticle id first alt =
        ({ success := false
         , message := "Server error (" ++ toString st ++ "): " ++ m }, false)) := by
  refine ⟨⟨(deleteArticle id first alt).1.success,
           (deleteArticle id first alt).1.message, rfl⟩, ?_, ?_, ?_, ?_, ?_, ?_, ?_, ?_⟩
  · intro h; subst h; rfl
  · intro m h; subst h; rfl
  · intro st stxt bodyText parse heq hbody
    subst heq
    simp only [deleteArticle, hbody, if_true, getField, jsGet, jsOrUndefinedLeft]
    cases hst : stxt.isEmpty with
    | true =>
        have hus : strIncludes "Unknown error" deleteSignature = false := by decide
        simp [jsOr, truthy, hst, hus]
    | false =>
        simp only [jsOr, truthy, hst, Bool.not_false, if_true]
        cases hs : strIncludes stxt deleteSignature with
        | false => simp [hs]
        | true =>
            simp only [hs, if_true]
            cases alt <;> simp [hs]
  · intro st stxt bodyText perr heq hbody
    subst heq
    simp only [deleteArticle, hbody, Bool.false_eq_true, if_false]
    simp only [getField, jsGet]
    have hem : ("error" = "message") = False := by simp
    simp only [hem, if_false, jsOrUndefinedLeft]
    simp only [jsOr, truthy, hbody, Bool.not_false, if_true]
    cases hs : strIncludes bodyText deleteSignature with
    | false => simp [hs]
    | true =>
        simp only [hs, if_true]
        cases alt <;> simp [hs]
  · intro st stxt bodyText j heq hbody hnull
    subst heq
    rcases hnull with rfl | rfl <;> simp [deleteArticle, hbody, getField]
  · intro st stxt bodyText j mj ej heq hbody hm he
    subst heq
    simp only [deleteArticle, hbody, Bool.false_eq_true, if_false, hm, he]
    cases hem : jsOr mj (jsOr ej (jsOr (.str stxt) (.str "Unknown error"))) with
    | str m =>
        cases hs : strIncludes m deleteSignature with
        | false => simp [hs]
        | true =>
            simp only [hs, if_true]
            cases alt <;> simp [hs]
    | arr es =>
        cases hs : jsonArrIncludesStr es deleteSignature with
        | false => simp [hs]
        | true =>
            simp only [hs, if_true]
            cases alt <;> simp [hs]
    | null => rfl
    | jsUndefined => rfl
    | bool b => rfl
    | num n => rfl
    | obj fs => rfl
  · intro st stxt bodyText j m heq hbody hm hmne hsig halt
    subst heq; subst halt
    obtain ⟨hj1, hj2⟩ := getField_ok_ne hm
    obtain ⟨ve, he⟩ := getField_ok "error" hj1 hj2
    simp only [deleteArticle, hbody, Bool.false_eq_true, if_false, hm, he, jsOr, truthy,
      hmne, Bool.not_false, if_true, hsig]
  · intro st stxt bodyText j m heq hbody hm hmne hsig
    subst heq
    obtain ⟨hj1, hj2⟩ := getField_ok_ne hm
    obtain ⟨ve, he⟩ := getField_ok "error" hj1 hj2
    simp only [deleteArticle, hbody, Bool.false_eq_true, if_false, hm, he, jsOr, truthy,
      hmne, Bool.not_false, if_true, hsig]

/-- C6 witness: the delete contract applied to two concrete 500 responses —
one whose parsed body carries the defect signature in its `message` field
(alternate endpoint succeeds), and one with the backend delete handler's
actual `{msg, error, success}` shape, where the signature arrives via the
`error` field and still triggers the alternate attempt. -/
theorem c6_delete_contract_witness :
    "raw".isEmpty = false ∧
    getField c6parsedBody "message" = .ok (.str "findOneAndRemove is not a function") ∧
    "findOneAndRemove is not a function".isEmpty = false ∧
    strIncludes "findOneAndRemove is not a function" deleteSignature = true ∧
    deleteArticle "a1"
        (.httpErr 500 "Internal Server Error" "raw" (.ok c6parsedBody)) .ok =
      ({ success := true, message := "Article deleted successfully (alt method)" }, true) ∧
    getField c6backendBody "message" = .ok .jsUndefined ∧
    getField c6backendBody "error" =
      .ok (.str "Article.findOneAndRemove is not a function") ∧
    (deleteArticle "a1"
        (.httpErr 500 "Internal Server Error" "raw" (.ok c6backendBody)) .ok).2 = true :=
  ⟨rfl, rfl, rfl, by decide,
    (c6_delete_contract "a1"
        (.httpErr 500 "Internal Server Error" "raw" (.ok c6parsedBody)) .ok).2.2.2.2.2.2.2.1
      500 "Internal Server Error" "raw" c6parsedBody "findOneAndRemove is not a function"
      rfl rfl rfl rfl (by decide) rfl,
    rfl, rfl,
    by
      rw [(c6_delete_contract "a1"
          (.httpErr 500 "Internal Server Error" "raw" (.ok c6backendBody)) .ok).2.2.2.2.2.2.1
        500 "Internal Server Error" "raw" c6backendBody .jsUndefined
        (.str "Article.findOneAndRemove is not a function") rfl rfl rfl rfl]
      decide⟩

/-! ## Claim C7 — server-side create -/

/-- C7 counterexample: a create request whose `articleid` is fresh (the store
is empty) but which omits the required `title` is not persisted and not
returned — `save()` fails schema validation and the handler answers 500 with
the store unchanged, refuting "otherwise the article is persisted and
returned". -/
theorem c7_create_invalid_body_not_persisted :
    noTitleBody.articleid = some "a1" ∧
    createHandler [] noTitleBody 1000 = (500, .msg "Server Error", []) :=
  ⟨rfl, rfl⟩

/-- C7 (amended): a create request whose `articleid` already exists is
rejected with 400 and the store is unchanged; otherwise, when the body passes
schema validation (required fields present and non-empty, any provided status
among the three), the document is appended and echoed back with `status`
defaulting to `draft` when omitted; a body failing validation yields 500 with
the store unchanged. -/
theorem c7_create_contract (store : List BArticle) (b : CreateBody) (now : Nat) :
    (∀ aid, b.articleid = some aid → (∃ x ∈ store, x.articleid = aid) →
      createHandler store b now = (400, .msg "Article with this ID already exists", store)) ∧
    (∀ aid, b.articleid = some aid → (∀ x ∈ store, x.articleid ≠ aid) →
      saveValid b = true →
      createHandler store b now = (200, .doc (buildDoc b now), store ++ [buildDoc b now]) ∧
      (buildDoc b now).status = b.status.getD "draft" ∧
      (b.status = none → (buildDoc b now).status = "draft") ∧
      (buildDoc b now).articleid = aid ∧
      (buildDoc b now).date = now) ∧
    (∀ aid, b.articleid = some aid → (∀ x ∈ store, x.articleid ≠ aid) →
      saveValid b = false →
      createHandler store b now = (500, .msg "Server Error", store)) := by
  refine ⟨?_, ?_, ?_⟩
  · intro aid haid hex
    rcases hex with ⟨x, hxmem, hxeq⟩
    cases hfind : store.find? (fun a => a.articleid = aid) with
    | none =>
        have := List.find?_eq_none.mp hfind x hxmem
        simp [hxeq] at this
    | some y => simp [createHandler, haid, hfind]
  · intro aid haid hnone hvalid
    have hfind : store.find? (fun a => a.articleid = aid) = none :=
      List.find?_eq_none.mpr (by intro x hx; simpa using hnone x hx)
    refine ⟨by simp [createHandler, haid, hfind, hvalid], rfl, ?_, ?_, rfl⟩
    · intro h; simp [buildDoc, h]
    · simp [buildDoc, haid]
  · intro aid haid hnone hinvalid
    have hfind : store.find? (fun a => a.articleid = aid) = none :=
      List.find?_eq_none.mpr (by intro x hx; simpa using hnone x hx)
    simp [createHandler, haid, hfind, hinvalid]

/-- C7 witness: the create contract applied to a one-document store and the
schema-valid fresh-id body `c7okBody` (which omits `status`). -/
theorem c7_create_contract_witness :
    c7okBody.articleid = some "b2" ∧ saveValid c7okBody = true ∧
    createHandler [olderDoc] c7okBody 7 =
      (200, .doc (buildDoc c7okBody 7), [olderDoc] ++ [buildDoc c7okBody 7]) ∧
    (buildDoc c7okBody 7).status = "draft" :=
  ⟨rfl, rfl,
    ((c7_create_contract [olderDoc] c7okBody 7).2.1 "b2" rfl (by decide) rfl).1,
    ((c7_create_contract [olderDoc] c7okBody 7).2.1 "b2" rfl (by decide) rfl).2.2.1 rfl⟩

theorem updateFirst_map_pres {α : Type} (f : BArticle → BArticle) (g : BArticle → α)
    (hf : ∀ a, g (f a) = g a) (id : String) (store : List BArticle) :
    (updateFirst f id store).map g = store.map g := by
  induction store with
  | nil => rfl
  | cons a rest ih =>
    unfold updateFirst; split
    · simp only [List.map_cons, hf]
    · simp only [List.map_cons, ih]

theorem updateFirst_mem {f : BArticle → BArticle} {id : String} {store : List BArticle} :
    ∀ x ∈ updateFirst f id store, x ∈ store ∨ ∃ y ∈ store, y.articleid = id ∧ x = f y := by
  induction store with
  | nil => intro x hx; cases hx
  | cons a rest ih =>
    intro x hx
    unfold updateFirst at hx
    by_cases ha : a.articleid = id
    · rw [if_pos ha] at hx
      rcases List.mem_cons.mp hx with rfl | hxr
      · exact Or.inr ⟨a, List.mem_cons_self a rest, ha, rfl⟩
      · exact Or.inl (List.mem_cons_of_mem a hxr)
    · rw [if_neg ha] at hx
      rcases List.mem_cons.mp hx with rfl | hxr
      · exact Or.inl (List.mem_cons_self x rest)
      · rcases ih x hxr with hl | ⟨y, hy, hyid, hxy⟩
        · exact Or.inl (List.mem_cons_of_mem a hl)
        · exact Or.inr ⟨y, List.mem_cons_of_mem a hy, hyid, hxy⟩

/-! ## Claim C8 — server-side frame conditions -/

/-- C8: the status-patch handler with a valid status modifies only the
`status` field — the stores before and after agree document-for-document once
statuses are erased, and any changed document is a stored document whose
`articleid` matches the target with its status set to the new value; it
answers 400 on an invalid or missing status and 404 when no document matches,
each leaving the store unchanged; and neither the PUT update handler nor the
status-patch handler ever modifies any document's `articleid` or `date`. -/
theorem c8_update_handlers_frame (store : List BArticle) (id : String) :
    (∀ s, s ∈ validStatuses →
      ((patchStatusHandler store id (some s)).2.2.map (fun a => { a with status := "" }) =
        store.map (fun a => { a with status := "" })) ∧
      (∀ x ∈ (patchStatusHandler store id (some s)).2.2,
        x ∈ store ∨ ∃ y ∈ store, y.articleid = id ∧ x = { y with status := s }) ∧
      ((∃ x ∈ store, x.articleid = id) → (patchStatusHandler store id (some s)).1 = 200) ∧
      ((∀ x ∈ store, x.articleid ≠ id) →
        patchStatusHandler store id (some s) = (404, .msg "Article not found", store))) ∧
    (∀ s, s ∉ validStatuses →
      patchStatusHandler store id (some s) =
        (400, .msg "Invalid status. Must be draft, published, or archived", store)) ∧
    (patchStatusHandler store id none =
      (400, .msg "Invalid status. Must be draft, published, or archived", store)) ∧
    (∀ st, (patchStatusHandler store id st).2.2.map (fun a => (a.articleid, a.date)) =
      store.map (fun a => (a.articleid, a.date))) ∧
    (∀ b, (putHandler store id b).2.2.map (fun a => (a.articleid, a.date)) =
      store.map (fun a => (a.articleid, a.date))) := by
  refine ⟨?_, ?_, rfl, ?_, ?_⟩
  · intro s hs
    refine ⟨?_, ?_, ?_, ?_⟩
    · cases hfind : store.find? (fun a => a.articleid = id) with
      | none => simp [patchStatusHandler, hs, hfind]
      | some y =>
          simp only [patchStatusHandler, if_pos hs, hfind]
          apply updateFirst_map_pres
          intro a; rfl
    · intro x hx
      cases hfind : store.find? (fun a => a.articleid = id) with
      | none =>
          simp only [patchStatusHandler, if_pos hs, hfind] at hx
          exact Or.inl hx
      | some y =>
          simp only [patchStatusHandler, if_pos hs, hfind] at hx
          exact updateFirst_mem x hx
    · intro hex
      rcases hex with ⟨x, hxmem, hxeq⟩
      cases hfind : store.find? (fun a => a.articleid = id) with
      | none =>
          have := List.find?_eq_none.mp hfind x hxmem
          simp [hxeq] at this
      | some y => simp [patchStatusHandler, hs, hfind]
    · intro hnone
      have hfind : store.find? (fun a => a.articleid = id) = none :=
        List.find?_eq_none.mpr (by intro x hx; simpa using hnone x hx)
      simp [patchStatusHandler, hs, hfind]
  · intro s hs
    simp [patchStatusHandler, hs]
  · intro st
    cases st with
    | none => rfl
    | some s =>
        by_cases hs : s ∈ validStatuses
        · cases hfind : store.find? (fun a => a.articleid = id) with
          | none => simp [patchStatusHandler, hs, hfind]
          | some y =>
              simp only [patchStatusHandler, if_pos hs, hfind]
              apply updateFirst_map_pres
              intro a; rfl
        · simp [patchStatusHandler, hs]
  · intro b
    cases hfind : store.find? (fun a => a.articleid = id) with
    | none => simp [putHandler, hfind]
    | some y =>
        simp only [putHandler, hfind]
        apply updateFirst_map_pres
        intro a; rfl

/-- C8 witness: the frame conditions applied to the concrete two-document
store, patching the status of `b1` to `archived`. -/
theorem c8_update_handlers_frame_witness :
    "archived" ∈ validStatuses ∧
    (patchStatusHandler [olderDoc, newerDoc] "b1" (some "archived")).2.2.map
        (fun a => { a with status := "" }) =
      [olderDoc, newerDoc].map (fun a => { a with status := "" }) ∧
    (patchStatusHandler [olderDoc, newerDoc] "b1" (some "archived")).1 = 200 :=
  ⟨by decide,
    ((c8_update_handlers_frame [olderDoc, newerDoc] "b1").1 "archived" (by decide)).1,
    ((c8_update_handlers_frame [olderDoc, newerDoc] "b1").1 "archived" (by decide)).2.2.1
      ⟨olderDoc, by decide, by decide⟩⟩

/-! ## Claim C10 — list endpoint silently ignores an invalid status filter -/

/-- C10: a list request with a status query value outside the three
recognized ones is answered 200 with the full unfiltered store — identical to
the unfiltered request — sorted by date descending (a permutation of the
store that is pairwise ordered by descending date), whereas the
status-specific route answers 400 for the same value. -/
theorem c10_list_ignores_invalid_filter (store : List BArticle) (s : String)
    (h : s ∉ validStatuses) :
    listHandler store (some s) = (200, sortByDateDesc store) ∧
    listHandler store (some s) = listHandler store none ∧
    (sortByDateDesc store).Perm store ∧
    (sortByDateDesc store).Pairwise dateDesc ∧
    getByStatusHandler store s =
      (400, .error "Invalid status. Must be draft, published, or archived") := by
  refine ⟨?_, ?_, sortByDateDesc_perm store, sortByDateDesc_pairwise store, ?_⟩
  · simp [listHandler, h]
  · simp [listHandler, h]
  · simp [getByStatusHandler, h]

/-- C10 witness: the invalid filter value `deleted` against a concrete
two-document store stored in ascending date order: the full list comes back
re-sorted newest-first with status 200, while the status route rejects the
same value with 400. -/
theorem c10_list_ignores_invalid_filter_witness :
    "deleted" ∉ validStatuses ∧
    listHandler [olderDoc, newerDoc] (some "deleted") =
      (200, sortByDateDesc [olderDoc, newerDoc]) ∧
    sortByDateDesc [olderDoc, newerDoc] = [newerDoc, olderDoc] ∧
    (getByStatusHandler [olderDoc, newerDoc] "deleted").1 = 400 :=
  ⟨by decide, (c10_list_ignores_invalid_filter [olderDoc, newerDoc] "deleted" (by decide)).1,
    by decide,
    by rw [(c10_list_ignores_invalid_filter [olderDoc, newerDoc] "deleted" (by decide)).2.2.2.2]⟩

end ArticleSync

